import Mathlib

/-!
# Verification of the LinkedIn-Posts news/post pipeline

A shallow embedding of the Python scripts `linkedin_mcp.py`,
`linkedin_poster.py`, `linkedin_manual_poster.py`, `linkedin_auth.py`,
`linkedin_ui.py`, `linkedin_web_ui_alt.py` and `post_to_linkedin.py`.

External effects (HTTP responses, the MCP subprocess outcome, the LLM
responses, the scraped Medium pages) are passed in explicitly as
environment values; every function of the repository that a claim refers
to is translated into a Lean function over those environments.
Python strings are `String`, Python dicts produced by `json.loads` are
the `Json` inductive below, and the handful of string operations the
code uses (`strip`, `lower`, `split`, `startswith`, slicing) are
re-implemented on `List Char` so that they compute by kernel reduction.
-/

/-! ## Python string primitives -/

/-- Characters treated as whitespace by `str.strip()` (ASCII fragment). -/
def isSpaceChar (c : Char) : Bool :=
  c = '\t' ∨ c = '\n' ∨ c = '\x0b' ∨ c = '\x0c' ∨ c = '\r' ∨ c = ' '

/-- Python `s.strip()`. -/
def pyStrip (s : String) : String :=
  ⟨((s.data.dropWhile isSpaceChar).reverse.dropWhile isSpaceChar).reverse⟩

/-- Python `s.lower()` (ASCII fragment). -/
def pyLower (s : String) : String :=
  ⟨s.data.map Char.toLower⟩

/-- Python `s.startswith(p)`. -/
def pyStartsWith (p s : String) : Bool :=
  p.data.isPrefixOf s.data

/-- Split a character list on a separator character, Python `s.split(sep)`. -/
def splitOnChar (sep : Char) : List Char → List (List Char)
  | [] => [[]]
  | c :: cs =>
    if c = sep then [] :: splitOnChar sep cs
    else
      match splitOnChar sep cs with
      | [] => [[c]]
      | g :: gs => (c :: g) :: gs

/-- Python `s.split(sep)` for a one-character separator, as strings. -/
def pySplit (sep : Char) (s : String) : List String :=
  (splitOnChar sep s.data).map fun g => ⟨g⟩

/-- The characters after the first `:`; `s.split(a, 1)[1]` for `a = ':'`. -/
def charsAfterFirstColon : List Char → List Char
  | [] => []
  | c :: cs => if c = ':' then cs else charsAfterFirstColon cs

/-- Python `line.split(a, 1)[1].strip()` for `a = ':'` on a line that
contains a colon. -/
def afterFirstColon (s : String) : String :=
  pyStrip ⟨charsAfterFirstColon s.data⟩

/-- Substring test, Python `needle in haystack` on strings. -/
def isSubstring (n : List Char) : List Char → Bool
  | [] => n.isEmpty
  | c :: t => n.isPrefixOf (c :: t) || isSubstring n t

/-! ## JSON values and `json.loads`

Python dicts/lists/str/numbers/bools/None decoded by `json.loads` are
modelled by `Json`.  Numbers keep their lexeme: no claim depends on
numeric values, only on truthiness. -/

inductive Json where
  | null
  | bool (b : Bool)
  | num (lexeme : String)
  | str (s : String)
  | arr (elems : List Json)
  | obj (fields : List (String × Json))
deriving Repr, Inhabited

/-- Python truthiness of a decoded JSON value (`if not post_data`). A
numeric lexeme is truthy when it has a nonzero digit. -/
def Json.pyTruthy : Json → Bool
  | .null => false
  | .bool b => b
  | .num s => s.data.any fun c => c.isDigit && c ≠ '0'
  | .str s => s ≠ ""
  | .arr xs => !xs.isEmpty
  | .obj kvs => !kvs.isEmpty

/-- Whitespace skipped by the JSON decoder. -/
def skipWs : List Char → List Char
  | [] => []
  | c :: cs => if c = '\t' ∨ c = '\r' ∨ c = '\n' ∨ c = ' ' then skipWs cs else c :: cs

/-- One escape character inside a JSON string literal. -/
def escChar (e : Char) : Option Char :=
  if e = 'n' then some '\n'
  else if e = 't' then some '\t'
  else if e = 'r' then some '\r'
  else if e = '"' then some '"'
  else if e = '\\' then some '\\'
  else if e = '/' then some '/'
  else if e = 'b' then some '\x08'
  else if e = 'f' then some '\x0c'
  else none

/-- Body of a JSON string literal (after the opening quote): accumulated
characters and the remainder after the closing quote. -/
def parseStrChars : List Char → List Char → Option (List Char × List Char)
  | [], _ => none
  | '"' :: rest, acc => some (acc.reverse, rest)
  | '\\' :: rest, acc =>
    match rest with
    | [] => none
    | e :: rest2 =>
      match escChar e with
      | some c => parseStrChars rest2 (c :: acc)
      | none => none
  | c :: rest, acc => parseStrChars rest (c :: acc)

/-- Is the character part of a numeric lexeme? -/
def isNumChar (c : Char) : Bool :=
  c.isDigit || c = '-' || c = '+' || c = '.' || c = 'e' || c = 'E'

/-- Longest numeric-lexeme prefix and the remainder. -/
def spanNum : List Char → (List Char × List Char)
  | [] => ([], [])
  | c :: cs =>
    if isNumChar c then
      match spanNum cs with
      | (a, b) => (c :: a, b)
    else ([], c :: cs)

mutual

/-- Fuel-indexed JSON value decoder: value and remaining input. -/
def parseJsonVal : Nat → List Char → Option (Json × List Char)
  | 0, _ => none
  | fuel + 1, cs =>
    let t := skipWs cs
    if "null".data.isPrefixOf t then some (.null, t.drop 4)
    else if "true".data.isPrefixOf t then some (.bool true, t.drop 4)
    else if "false".data.isPrefixOf t then some (.bool false, t.drop 5)
    else
    match t with
    | '"' :: rest =>
      match parseStrChars rest [] with
      | some (s, r) => some (.str ⟨s⟩, r)
      | none => none
    | '[' :: rest =>
      match skipWs rest with
      | ']' :: r2 => some (.arr [], r2)
      | r2 => parseJsonElems fuel r2 []
    | '{' :: rest =>
      match skipWs rest with
      | '}' :: r2 => some (.obj [], r2)
      | r2 => parseJsonFields fuel r2 []
    | c :: rest =>
      if c.isDigit || c = '-' then
        match spanNum (c :: rest) with
        | (lex, r) => some (.num ⟨lex⟩, r)
      else none
    | [] => none

/-- Comma-separated array elements up to the closing bracket. -/
def parseJsonElems : Nat → List Char → List Json → Option (Json × List Char)
  | 0, _, _ => none
  | fuel + 1, cs, acc =>
    match parseJsonVal fuel cs with
    | none => none
    | some (v, rest) =>
      match skipWs rest with
      | ',' :: r => parseJsonElems fuel r (acc ++ [v])
      | ']' :: r => some (.arr (acc ++ [v]), r)
      | _ => none

/-- Comma-separated object fields up to the closing brace. -/
def parseJsonFields : Nat → List Char → List (String × Json) → Option (Json × List Char)
  | 0, _, _ => none
  | fuel + 1, cs, acc =>
    match skipWs cs with
    | '"' :: rest =>
      match parseStrChars rest [] with
      | none => none
      | some (k, r1) =>
        match skipWs r1 with
        | ':' :: r2 =>
          match parseJsonVal fuel r2 with
          | none => none
          | some (v, r3) =>
            match skipWs r3 with
            | ',' :: r4 => parseJsonFields fuel r4 (acc ++ [(⟨k⟩, v)])
            | '}' :: r4 => some (.obj (acc ++ [(⟨k⟩, v)]), r4)
            | _ => none
        | _ => none
    | _ => none

end

/-- Python `json.loads`: decode the whole input, failing on trailing
garbage; `none` models a raised `json.JSONDecodeError`. -/
def jsonLoads (s : String) : Option Json :=
  match parseJsonVal (s.data.length + 1) s.data with
  | some (v, rest) => if (skipWs rest).isEmpty then some v else none
  | none => none

/-- Python `key in value` on a decoded JSON value: key membership for a
dict, element equality for a list, substring test for a string, and a
`TypeError` (modelled `Except.error`) for the remaining types. -/
def pyIn (key : String) : Json → Except Unit Bool
  | .obj kvs => .ok (kvs.any fun kv => kv.1 == key)
  | .arr xs => .ok (xs.any fun x => match x with | .str s => s == key | _ => false)
  | .str s => .ok (isSubstring key.data s.data)
  | _ => .error ()

/-- Python `value[key]` with a string key: dict lookup (`json.loads`
keeps the last duplicate), `KeyError` / `TypeError` as `Except.error`. -/
def pyGetItem (key : String) : Json → Except Unit Json
  | .obj kvs =>
    match (kvs.filter fun kv => kv.1 == key).getLast? with
    | some kv => .ok kv.2
    | none => .error ()
  | _ => .error ()

/-! ## Articles and news sources

An article is the dict built by `MediumScraper._extract_article_data` /
`NewsFetcher._parse_mcp_news_response`: string values under the keys
`title`, `summary`, `url`, each possibly absent. -/

structure Article where
  title : Option String := none
  summary : Option String := none
  url : Option String := none
deriving DecidableEq, Repr, Inhabited

/-- The news sources the fetch chain can consult.  `newsAPI` and
`googleRSS` appear in the specification's description of the chain; the
environment carries their hypothetical results so that the claim about
them is statable. -/
inductive Source where
  | newsAPI
  | googleRSS
  | medium
  | mcpServer
  | openaiSearch
deriving DecidableEq, Repr

namespace MediumScraper

/-- `article.get('title', '').lower().strip()`, the dedup key of
`MediumScraper._remove_duplicates`. -/
def normTitle (a : Article) : String :=
  pyStrip (pyLower (a.title.getD ""))

/-- Loop body of `_remove_duplicates`: `seen` is the set of normalised
titles already kept. -/
def removeDupAux (seen : List String) : List Article → List Article
  | [] => []
  | a :: rest =>
    let t := normTitle a
    if t ≠ "" ∧ t ∉ seen then a :: removeDupAux (t :: seen) rest
    else removeDupAux seen rest

/-- `MediumScraper._remove_duplicates` (linkedin_mcp.py:172-183). -/
def remove_duplicates (articles : List Article) : List Article :=
  removeDupAux [] articles

/-- The page-scraping loop of `search_ai_articles`: each entry of
`pages` is what scraping one tag URL yields (`Except.error` models a
raised/handled per-URL exception, which the loop `continue`s over);
the loop breaks once at least `max_results` articles are collected. -/
def gatherPages (max_results : Nat) : List (Except Unit (List Article)) → List Article → List Article
  | [], acc => acc
  | p :: ps, acc =>
    match p with
    | .error _ => gatherPages max_results ps acc
    | .ok found =>
      let acc2 := acc ++ found
      if max_results ≤ acc2.length then acc2
      else gatherPages max_results ps acc2

/-- `MediumScraper.search_ai_articles` (linkedin_mcp.py:33-75).  The
environment is `Except.error ()` when the surrounding `try` catches a
top-level exception (the function then returns `[]`), otherwise the
list of per-URL scrape outcomes. -/
def search_ai_articles (env : Except Unit (List (Except Unit (List Article))))
    (max_results : Nat) : List Article :=
  match env with
  | .error _ => []
  | .ok pages => (remove_duplicates (gatherPages max_results pages [])).take max_results

end MediumScraper

namespace NewsFetcher

/-- One line of `_parse_mcp_news_response`'s loop: the accumulated
article list and the `current_article` dict being filled in. -/
def mcpLineStep (st : List Article × Article) (line0 : String) : List Article × Article :=
  let line := pyStrip line0
  let articles := st.1
  let cur := st.2
  if pyStartsWith "Title:" line || pyStartsWith "**Title:" line then
    let articles := if cur ≠ {} then articles ++ [cur] else articles
    (articles, { title := some (afterFirstColon line) })
  else if pyStartsWith "Summary:" line || pyStartsWith "**Summary:" line then
    (articles, { cur with summary := some (afterFirstColon line) })
  else if pyStartsWith "URL:" line || pyStartsWith "**URL:" line then
    (articles, { cur with url := some (afterFirstColon line) })
  else if pyStartsWith "http" line && cur.url = none then
    (articles, { cur with url := some line })
  else (articles, cur)

/-- `NewsFetcher._parse_mcp_news_response` (linkedin_mcp.py:245-273). -/
def parse_mcp_news_response (content : String) : List Article :=
  let st := (pySplit '\n' content).foldl mcpLineStep ([], {})
  let articles := if st.2 ≠ {} ∧ st.2.title.isSome then st.1 ++ [st.2] else st.1
  articles.take 2

/-- Outcome of the one OpenAI chat call made by
`_search_news_with_openai`: an exception or the response text. -/
inductive OpenAiRun where
  | exn
  | ok (content : String)
deriving DecidableEq, Repr

/-- `title`/`summary`/`url` string fields of a decoded JSON object, as
an `Article` (non-object elements and non-string fields give `none`). -/
def jsonToArticle : Json → Article
  | .obj kvs =>
    { title := match (kvs.filter fun kv => kv.1 == "title").getLast? with
        | some (_, .str s) => some s | _ => none
      summary := match (kvs.filter fun kv => kv.1 == "summary").getLast? with
        | some (_, .str s) => some s | _ => none
      url := match (kvs.filter fun kv => kv.1 == "url").getLast? with
        | some (_, .str s) => some s | _ => none }
  | _ => {}

/-- `NewsFetcher._search_news_with_openai` (linkedin_mcp.py:275-333):
strip the response, try `json.loads`; on success return the dict's
`articles` list, on decode failure return the single fallback article,
and return `[]` when anything raises (caught by the final `except`). -/
def search_news_with_openai : OpenAiRun → List Article
  | .exn => []
  | .ok raw =>
    let content := pyStrip raw
    match jsonLoads content with
    | some data =>
      match data with
      | .obj kvs =>
        match (kvs.filter fun kv => kv.1 == "articles").getLast? with
        | some (_, .arr xs) => xs.map jsonToArticle
        | some _ => []
        | none => []
      | _ => []
    | none =>
      [{ title := some "Recent AI Developments"
         summary := some (if 200 < content.data.length
           then ⟨content.data.take 200⟩ ++ "..." else content)
         url := some "N/A" }]

/-- Outcome of the `subprocess.run` call in `search_news_with_mcp`: a
raised `TimeoutExpired`/`FileNotFoundError`, or an exit with a return
code and captured stdout. -/
inductive McpRun where
  | exn
  | exit (returncode : Int) (stdout : String)
deriving DecidableEq, Repr

/-- The MCP-server stage of `search_news_with_mcp` (linkedin_mcp.py:
214-236): `some articles` when the stage itself produces the function's
result (a well-formed response, or a non-handled error caught by the
outer `except` which returns `[]`), `none` when control falls through
to the OpenAI fallback (handled exception, nonzero exit, invalid JSON,
or a response without `result`/`content` fields). -/
def mcpStageResult : McpRun → Option (List Article)
  | .exn => none
  | .exit rc out =>
    if rc = 0 then
      match jsonLoads out with
      | none => none
      | some resp =>
        match pyIn "result" resp with
        | .error _ => some []
        | .ok false => none
        | .ok true =>
          match pyGetItem "result" resp with
          | .error _ => some []
          | .ok rv =>
            match pyIn "content" rv with
            | .error _ => some []
            | .ok false => none
            | .ok true =>
              match pyGetItem "content" rv with
              | .error _ => some []
              | .ok (.str c) => some (parse_mcp_news_response c)
              | .ok _ => some []
    else none

/-- `NewsFetcher.search_news_with_mcp` (linkedin_mcp.py:193-243),
instrumented with the list of sources it consults. -/
def search_news_with_mcp (mcp : McpRun) (oa : OpenAiRun) : List Article × List Source :=
  match mcpStageResult mcp with
  | some arts => (arts, [Source.mcpServer])
  | none => (search_news_with_openai oa, [Source.mcpServer, Source.openaiSearch])

/-- Environment of one `fetch_latest_news` execution.  `newsApi` and
`googleRss` are what those services would return if they were consulted
(the code never consults them; the fields exist so the specification's
fallback chain over them can be stated). -/
structure FetchEnv where
  newsApi : List Article := []
  googleRss : List Article := []
  medium : Except Unit (List (Except Unit (List Article))) := .ok []
  mcp : McpRun := .exn
  openai : OpenAiRun := .exn

/-- `NewsFetcher.fetch_latest_news` (linkedin_mcp.py:335-355),
instrumented with the list of consulted sources: Medium scraping first,
then the MCP stage (with its internal OpenAI fallback) only when Medium
yielded nothing. -/
def fetch_latest_news (env : FetchEnv) : List Article × List Source :=
  let articles := MediumScraper.search_ai_articles env.medium 3
  if ¬articles.isEmpty then (articles, [Source.medium])
  else
    let r := search_news_with_mcp env.mcp env.openai
    (r.1, Source.medium :: r.2)

end NewsFetcher

/-! ## Post generation (`LinkedInPostGenerator`) -/

namespace LinkedInPostGenerator

/-- Outcome of the OpenAI chat call in `generate_post`. -/
inductive LlmRun where
  | exn
  | ok (content : String)
deriving DecidableEq, Repr

/-- The hard-coded dict returned by `generate_post` when the response is
not valid JSON (linkedin_mcp.py:446-453). -/
def fallbackPost (content : String) (articles : List Article) : Json :=
  .obj [("title", .str "AI News Update"),
        ("post_body_en", .str content),
        ("post_body_es", .str "Error: Could not parse Spanish version"),
        ("link", .str ((articles.headD {}).url.getD ""))]

/-- `LinkedInPostGenerator.generate_post` (linkedin_mcp.py:414-457).
The Python function returns `None` for an empty article list or a
raised call; otherwise it returns `json.loads` of the stripped response
(so a response decoding to JSON `null` is returned as Python `None`,
here `none`), or the fallback dict when decoding fails. -/
def generate_post (articles : List Article) (llm : LlmRun) : Option Json :=
  if articles.isEmpty then none
  else
    match llm with
    | .exn => none
    | .ok raw =>
      let content := pyStrip raw
      match jsonLoads content with
      | some v => match v with | .null => none | _ => some v
      | none => some (fallbackPost content articles)

end LinkedInPostGenerator

/-! ## The three frontends around `LinkedInMCP.run` -/

/-- The pipeline steps of the spec's "three-step pipeline". -/
inductive Step where
  | fetchNews
  | generatePost
  | outputResults
deriving DecidableEq, Repr

/-- Environment of one pipeline execution: the news environment and the
LLM outcome for the post-generation call. -/
structure RunEnv where
  news : NewsFetcher.FetchEnv
  llm : LinkedInPostGenerator.LlmRun

/-- Observable outcome of `LinkedInMCP.run`: the returned value, the
content written to `linkedin_post.json` by `output_results` (if any),
and the pipeline steps performed, in order. -/
structure RunOutcome where
  result : Option Json
  savedFile : Option Json
  steps : List Step
deriving Repr

namespace LinkedInMCP

/-- `LinkedInMCP.run` (linkedin_mcp.py:467-486): fetch news, stop on an
empty list; generate the post, stop on a falsy result; otherwise
`output_results` prints the post and saves it to `linkedin_post.json`,
and the post is returned. -/
def run (env : RunEnv) : RunOutcome :=
  let articles := (NewsFetcher.fetch_latest_news env.news).1
  if articles.isEmpty then
    { result := none, savedFile := none, steps := [Step.fetchNews] }
  else
    match LinkedInPostGenerator.generate_post articles env.llm with
    | none =>
      { result := none, savedFile := none, steps := [Step.fetchNews, Step.generatePost] }
    | some pd =>
      if pd.pyTruthy then
        { result := some pd, savedFile := some pd,
          steps := [Step.fetchNews, Step.generatePost, Step.outputResults] }
      else
        { result := none, savedFile := none, steps := [Step.fetchNews, Step.generatePost] }

end LinkedInMCP

/-- The CLI entry point `main` of linkedin_mcp.py (after its API-key
check): it runs `LinkedInMCP.run` unchanged. -/
def mainCli (env : RunEnv) : RunOutcome :=
  LinkedInMCP.run env

/-- `LinkedInPostsUI._generate_post_thread` (linkedin_ui.py:156-167):
the desktop GUI's worker calls `self.mcp.run()` unchanged (the result
is then only displayed). -/
def generate_post_thread (env : RunEnv) : RunOutcome :=
  LinkedInMCP.run env

/-- Observable outcome of the web UI's background generation: the
global `current_post_data` and `generation_status` it leaves behind,
the file it writes (it writes none), and the pipeline steps it runs. -/
structure WebOutcome where
  current_post_data : Option Json
  generation_status : String
  savedFile : Option Json
  steps : List Step
deriving Repr

/-- `WebLinkedInMCP.generate_post_async` (linkedin_web_ui_alt.py:37-74):
it calls `fetch_latest_news` and `generate_post` itself, stores the
post in the module-global `current_post_data`, and never calls
`output_results` (no `linkedin_post.json` is written). -/
def generate_post_async (env : RunEnv) : WebOutcome :=
  let articles := (NewsFetcher.fetch_latest_news env.news).1
  if articles.isEmpty then
    { current_post_data := none, generation_status := "error",
      savedFile := none, steps := [Step.fetchNews] }
  else
    match LinkedInPostGenerator.generate_post articles env.llm with
    | none =>
      { current_post_data := none, generation_status := "error",
        savedFile := none, steps := [Step.fetchNews, Step.generatePost] }
    | some pd =>
      if pd.pyTruthy then
        { current_post_data := some pd, generation_status := "success",
          savedFile := none, steps := [Step.fetchNews, Step.generatePost] }
      else
        { current_post_data := none, generation_status := "error",
          savedFile := none, steps := [Step.fetchNews, Step.generatePost] }

/-! ## Posting and formatting (`linkedin_poster.py`, `linkedin_manual_poster.py`) -/

/-- The post dict consumed by the posters: string values under the keys
`title`, `post_body_en`, `post_body_es`, `link`, each possibly absent. -/
structure PostData where
  title : Option String := none
  post_body_en : Option String := none
  post_body_es : Option String := none
  link : Option String := none
deriving DecidableEq, Repr

/-- The language-selection step shared verbatim by
`LinkedInPoster.post_to_company_page` (linkedin_poster.py:44-48) and
`LinkedInManualPoster.format_post_for_linkedin`
(linkedin_manual_poster.py:26-29): the Spanish body when `language`
is `es` and the key is present, else `post_data.get('post_body_en', '')`. -/
def selectPostBody (pd : PostData) (language : String) : String :=
  if language = "es" ∧ pd.post_body_es.isSome then pd.post_body_es.getD ""
  else pd.post_body_en.getD ""

namespace LinkedInPoster

/-- Outcome of the `requests.post` call to the `ugcPosts` endpoint: a
raised exception or a response with a status code. -/
inductive HttpResult where
  | exn
  | status (code : Int)
deriving DecidableEq, Repr

/-- `LinkedInPoster.post_to_company_page` (linkedin_poster.py:41-113):
first component is the returned bool (`True` exactly on status 201),
second component records whether the HTTP request was issued. -/
def post_to_company_page (pd : PostData) (language : String) (http : HttpResult) :
    Bool × Bool :=
  let post_text := selectPostBody pd language
  if post_text = "" then (false, false)
  else
    match http with
    | .exn => (false, true)
    | .status code => (if code = 201 then true else false, true)

end LinkedInPoster

namespace LinkedInManualPoster

/-- Is a link appended? `post_data.get('link') and post_data['link'] != 'N/A'`. -/
def linkUsable (pd : PostData) : Bool :=
  pd.link.getD "" ≠ "" && pd.link.getD "" ≠ "N/A"

/-- `LinkedInManualPoster.format_post_for_linkedin`
(linkedin_manual_poster.py:24-41). -/
def format_post_for_linkedin (pd : PostData) (language : String) : String :=
  let post_text := selectPostBody pd language
  if post_text = "" then "No post content available"
  else
    let formatted_post := pyStrip post_text
    if linkUsable pd then formatted_post ++ "\n\n" ++ pd.link.getD ""
    else formatted_post

end LinkedInManualPoster

/-! ## The `.env` token-save step of `linkedin_auth.py` -/

/-- The line written for the new access token (linkedin_auth.py:214/219). -/
def saveTokenLine (tok : String) : String :=
  "LINKEDIN_ACCESS_TOKEN=" ++ tok ++ "\n"

/-- The token-save step of `main` in linkedin_auth.py (lines 199-225):
replace the first line starting with `LINKEDIN_ACCESS_TOKEN=` by the
new token line and keep everything else; append the line when no line
matches.  `lines` is `env_content` as read by `readlines()`. -/
def updateEnvLines (lines : List String) (tok : String) : List String :=
  match lines with
  | [] => [saveTokenLine tok]
  | l :: ls =>
    if pyStartsWith "LINKEDIN_ACCESS_TOKEN=" l then saveTokenLine tok :: ls
    else l :: updateEnvLines ls tok

/-! ## Spec-side definitions and concrete inputs used by the theorems -/

/-- Modelled from the spec's words for claim C1 only: the news fetch as
an ordered try/fallback list over NewsAPI, Google News RSS, Medium HTML
scraping and the LLM-based search, in that order, returning the first
non-empty result.  Compared against `NewsFetcher.fetch_latest_news`. -/
def specFallbackChainFetch (env : NewsFetcher.FetchEnv) : List Article :=
  if ¬env.newsApi.isEmpty then env.newsApi
  else if ¬env.googleRss.isEmpty then env.googleRss
  else if ¬(MediumScraper.search_ai_articles env.medium 3).isEmpty then
    MediumScraper.search_ai_articles env.medium 3
  else NewsFetcher.search_news_with_openai env.openai

/-- The deduplication rule as amended for claim C3: scan left to right,
keeping an article exactly when its lowercased-and-stripped title is
non-empty and no already-kept article has the same normalised title. -/
def dedupByNormalizedTitleSpec (l : List Article) : List Article :=
  l.foldl
    (fun acc a =>
      if MediumScraper.normTitle a ≠ "" ∧
          ¬acc.any (fun b => MediumScraper.normTitle b == MediumScraper.normTitle a)
      then acc ++ [a] else acc)
    []

/-- A Medium article used in concrete executions. -/
def aM : Article := { title := some "From Medium", summary := some "s", url := some "m" }

/-- An article NewsAPI would return, were it consulted. -/
def aN : Article := { title := some "From NewsAPI", url := some "n" }

/-- Environment in which both NewsAPI and the Medium scrape would yield
articles: the code returns Medium's. -/
def envA : NewsFetcher.FetchEnv :=
  { newsApi := [aN], googleRss := [], medium := .ok [.ok [aM]],
    mcp := .exn, openai := .exn }

/-- Environment in which Medium yields nothing, the MCP server responds
successfully with an empty `content`, and the OpenAI search would yield
an article: the code returns `[]` without consulting OpenAI. -/
def envB : NewsFetcher.FetchEnv :=
  { newsApi := [], googleRss := [], medium := .ok [.ok []],
    mcp := .exit 0 "\x7b\"result\": \x7b\"content\": \"\"\x7d\x7d",
    openai := .ok "\x7b\"articles\": [\x7b\"title\": \"AI\", \"summary\": \"s\", \"url\": \"u\"\x7d]\x7d" }

/-- A fully successful pipeline environment: Medium yields `aM` and the
LLM answers with a small valid JSON object. -/
def envRunOk : RunEnv := { news := envA, llm := .ok "\x7b\"title\": \"T\"\x7d" }

/-- The post the LLM response of `envRunOk` decodes to. -/
def pdRun : Json := Json.obj [("title", Json.str "T")]

/-- Two articles whose titles differ only in letter case. -/
def artAIupper : Article := { title := some "AI" }

/-- See `artAIupper`. -/
def artAIlower : Article := { title := some "ai" }

/-- A post dict with every key present. -/
def pdEx : PostData :=
  { title := some "T", post_body_en := some "  Hello!  ",
    post_body_es := some "Hola", link := some "https://x" }

/-- A non-empty article list for `generate_post`. -/
def articlesEx : List Article := [aM]

/-- Example `.env` content with a token line in the middle. -/
def envLinesEx : List String :=
  ["OPENAI_API_KEY=k\n", "LINKEDIN_ACCESS_TOKEN=old\n", "LINKEDIN_COMPANY_ID=42\n"]

/-! ## Theorems -/

/-- C5: `post_to_company_page` reports success exactly on HTTP 201: it
returns `True` iff the selected post body is non-empty and the call to
the ugcPosts endpoint returns status code 201; with an empty selected
body it returns `False` without issuing the HTTP request, and any other
status code or a raised exception yields `False`. -/
theorem post_to_company_page_success_iff (pd : PostData) (language : String)
    (http : LinkedInPoster.HttpResult) :
    ((LinkedInPoster.post_to_company_page pd language http).1 = true ↔
      selectPostBody pd language ≠ "" ∧ http = .status 201) ∧
    ((LinkedInPoster.post_to_company_page pd language http).2 = true ↔
      selectPostBody pd language ≠ "") := by
  unfold LinkedInPoster.post_to_company_page
  by_cases h : selectPostBody pd language = ""
  · simp [h]
  · cases http with
    | exn => simp [h]
    | status code =>
      by_cases hc : code = 201 <;>
        simp [h, hc, LinkedInPoster.HttpResult.status.injEq]

/-- Concrete instance of `post_to_company_page_success_iff`. -/
theorem post_to_company_page_success_iff_witness :
    (LinkedInPoster.post_to_company_page pdEx "en" (.status 201)).1 = true ∧
    (LinkedInPoster.post_to_company_page pdEx "en" (.status 500)).1 = false := by
  constructor
  · exact (post_to_company_page_success_iff pdEx "en" (.status 201)).1.mpr
      ⟨by decide, rfl⟩
  · have h := (post_to_company_page_success_iff pdEx "en" (.status 500)).1
    by_contra hb
    simp only [Bool.not_eq_false] at hb
    exact absurd (h.mp hb).2 (by decide)

/-- C7: `format_post_for_linkedin` is a pure formatting function: with
an empty (or absent) selected body it returns the string
"No post content available" with no link; otherwise it returns the
selected body stripped of surrounding whitespace, with a blank line and
the link appended exactly when post_data has a non-empty link value
different from "N/A". -/
theorem format_post_for_linkedin_spec (pd : PostData) (language : String) :
    (selectPostBody pd language = "" →
      LinkedInManualPoster.format_post_for_linkedin pd language =
        "No post content available") ∧
    (selectPostBody pd language ≠ "" →
      LinkedInManualPoster.format_post_for_linkedin pd language =
        pyStrip (selectPostBody pd language) ++
          (if LinkedInManualPoster.linkUsable pd then "\n\n" ++ pd.link.getD ""
           else "")) := by
  unfold LinkedInManualPoster.format_post_for_linkedin
  by_cases h : selectPostBody pd language = ""
  · simp [h]
  · by_cases hl : LinkedInManualPoster.linkUsable pd <;>
      simp [h, hl, String.append_assoc]

/-- Concrete instance of `format_post_for_linkedin_spec`. -/
theorem format_post_for_linkedin_spec_witness :
    LinkedInManualPoster.format_post_for_linkedin pdEx "en" =
      "Hello!" ++ "\n\n" ++ "https://x" ∧
    LinkedInManualPoster.format_post_for_linkedin {} "en" =
      "No post content available" := by
  constructor
  · have h := (format_post_for_linkedin_spec pdEx "en").2 (by decide)
    simpa using h
  · exact (format_post_for_linkedin_spec {} "en").1 (by decide)

/-- C10: language selection silently falls back to English in both the
API poster and the manual formatter: the Spanish body is selected only
when the language is "es" and the key is present; in every other case
(including "es" with the key absent and any unrecognised language) the
English body, defaulting to "", is selected, and an unrecognised
language behaves exactly like "en". -/
theorem language_selection_fallback (pd : PostData) (language : String) :
    ((language = "es" ∧ pd.post_body_es.isSome) →
      selectPostBody pd language = pd.post_body_es.getD "") ∧
    (¬(language = "es" ∧ pd.post_body_es.isSome) →
      selectPostBody pd language = pd.post_body_en.getD "") ∧
    (language ≠ "es" →
      LinkedInManualPoster.format_post_for_linkedin pd language =
        LinkedInManualPoster.format_post_for_linkedin pd "en") ∧
    (∀ http, language ≠ "es" →
      LinkedInPoster.post_to_company_page pd language http =
        LinkedInPoster.post_to_company_page pd "en" http) := by
  have hen : ∀ hne : language ≠ "es",
      selectPostBody pd language = selectPostBody pd "en" := by
    intro hne
    unfold selectPostBody
    rw [if_neg (by simp [hne]), if_neg (by simp)]
  refine ⟨fun h => ?_, fun h => ?_, fun hne => ?_, fun http hne => ?_⟩
  · unfold selectPostBody
    rw [if_pos h]
  · unfold selectPostBody
    rw [if_neg h]
  · unfold LinkedInManualPoster.format_post_for_linkedin
    rw [hen hne]
  · unfold LinkedInPoster.post_to_company_page
    rw [hen hne]

/-- Concrete instance of `language_selection_fallback`. -/
theorem language_selection_fallback_witness :
    selectPostBody pdEx "es" = pdEx.post_body_es.getD "" ∧
    LinkedInManualPoster.format_post_for_linkedin pdEx "fr" =
      LinkedInManualPoster.format_post_for_linkedin pdEx "en" :=
  ⟨(language_selection_fallback pdEx "es").1 ⟨rfl, by decide⟩,
   (language_selection_fallback pdEx "fr").2.2.1 (by decide)⟩

/-- C6: saving the access token is a frame-preserving single-line
update of the `.env` lines: when no line starts with
`LINKEDIN_ACCESS_TOKEN=` the new token line is appended and everything
else is untouched; otherwise the first such line is replaced by the new
token line, and every other line is unchanged, in its original
position. -/
theorem updateEnvLines_frame (tok : String) :
    (∀ lines : List String,
      (∀ l ∈ lines, pyStartsWith "LINKEDIN_ACCESS_TOKEN=" l = false) →
      updateEnvLines lines tok = lines ++ [saveTokenLine tok]) ∧
    (∀ (pre post : List String) (l : String),
      (∀ x ∈ pre, pyStartsWith "LINKEDIN_ACCESS_TOKEN=" x = false) →
      pyStartsWith "LINKEDIN_ACCESS_TOKEN=" l = true →
      updateEnvLines (pre ++ l :: post) tok = pre ++ saveTokenLine tok :: post) := by
  constructor
  · intro lines
    induction lines with
    | nil => intro _; rfl
    | cons a ls ih =>
      intro h
      have ha := h a (List.mem_cons_self a ls)
      simp only [updateEnvLines, ha, Bool.false_eq_true, if_false, List.cons_append]
      rw [ih fun x hx => h x (List.mem_cons_of_mem a hx)]
  · intro pre
    induction pre with
    | nil =>
      intro post l _ hl
      simp only [List.nil_append, updateEnvLines, hl, if_true]
    | cons a ps ih =>
      intro post l h hl
      have ha := h a (List.mem_cons_self a ps)
      simp only [List.cons_append, updateEnvLines, ha, Bool.false_eq_true, if_false,
        List.append_eq]
      rw [ih post l (fun x hx => h x (List.mem_cons_of_mem a hx)) hl]

/-- Concrete instance of `updateEnvLines_frame`: replacement in the
middle and appending when no token line exists. -/
theorem updateEnvLines_frame_witness :
    updateEnvLines envLinesEx "newtok" =
      ["OPENAI_API_KEY=k\n", saveTokenLine "newtok", "LINKEDIN_COMPANY_ID=42\n"] ∧
    updateEnvLines ["A=1\n"] "newtok" = ["A=1\n", saveTokenLine "newtok"] :=
  ⟨(updateEnvLines_frame "newtok").2 ["OPENAI_API_KEY=k\n"]
      ["LINKEDIN_COMPANY_ID=42\n"] "LINKEDIN_ACCESS_TOKEN=old\n"
      (by decide) (by decide),
   (updateEnvLines_frame "newtok").1 ["A=1\n"] (by decide)⟩

/-- C3 (counterexample): deduplication is not exact-title matching —
two articles whose titles differ only in letter case are not both kept:
the later one is dropped although its title string differs
character-for-character from the kept title. -/
theorem remove_duplicates_exact_title_counterexample :
    MediumScraper.remove_duplicates [artAIupper, artAIlower] = [artAIupper] ∧
    artAIupper.title ≠ artAIlower.title := by
  constructor
  · rfl
  · decide

/-- The dedup scan with an explicit `seen` set agrees with the
left-fold formulation whenever `seen` holds exactly the normalised
titles of the articles accumulated so far. -/
theorem removeDupAux_eq_foldl (l : List Article) :
    ∀ (seen : List String) (acc : List Article),
    (∀ t, t ∈ seen ↔ ∃ b ∈ acc, MediumScraper.normTitle b = t) →
    acc ++ MediumScraper.removeDupAux seen l =
      l.foldl
        (fun acc a =>
          if MediumScraper.normTitle a ≠ "" ∧
              ¬acc.any (fun b => MediumScraper.normTitle b == MediumScraper.normTitle a)
          then acc ++ [a] else acc)
        acc := by
  induction l with
  | nil => intro seen acc _; simp [MediumScraper.removeDupAux]
  | cons a l ih =>
    intro seen acc hinv
    have hmem : MediumScraper.normTitle a ∈ seen ↔
        acc.any (fun b => MediumScraper.normTitle b == MediumScraper.normTitle a) = true := by
      rw [hinv]
      simp [List.any_eq_true]
    simp only [MediumScraper.removeDupAux, List.foldl_cons]
    by_cases hc : MediumScraper.normTitle a ≠ "" ∧ MediumScraper.normTitle a ∉ seen
    · rw [if_pos hc, if_pos ⟨hc.1, fun hany => hc.2 (hmem.mpr hany)⟩]
      have hstep : acc ++ a :: MediumScraper.removeDupAux
          (MediumScraper.normTitle a :: seen) l =
          (acc ++ [a]) ++ MediumScraper.removeDupAux
            (MediumScraper.normTitle a :: seen) l := by
        simp
      rw [hstep]
      refine ih (MediumScraper.normTitle a :: seen) (acc ++ [a]) ?_
      intro t
      constructor
      · intro ht
        rcases List.mem_cons.mp ht with h1 | h2
        · exact ⟨a, by simp, h1.symm⟩
        · rcases (hinv t).mp h2 with ⟨b, hb, hbt⟩
          exact ⟨b, by simp [hb], hbt⟩
      · rintro ⟨b, hb, hbt⟩
        rcases List.mem_append.mp hb with h1 | h2
        · exact List.mem_cons.mpr (Or.inr ((hinv t).mpr ⟨b, h1, hbt⟩))
        · have : b = a := by simpa using h2
          subst this
          exact List.mem_cons.mpr (Or.inl hbt.symm)
    · rw [if_neg hc]
      have hnc : ¬(MediumScraper.normTitle a ≠ "" ∧
          ¬acc.any (fun b => MediumScraper.normTitle b == MediumScraper.normTitle a) = true) := by
        intro hx
        exact hc ⟨hx.1, fun hs => hx.2 (hmem.mp hs)⟩
      rw [if_neg hnc]
      exact ih seen acc hinv

/-- C3 (amended): deduplication keys on the lowercased-and-stripped
title: the scan keeps the first article carrying each normalised title,
drops every later article whose normalised title is already kept, and
also drops any article whose normalised title is empty; titles
differing only in case or surrounding whitespace are therefore treated
as duplicates. -/
theorem remove_duplicates_normalized (l : List Article) :
    MediumScraper.remove_duplicates l = dedupByNormalizedTitleSpec l := by
  have h := removeDupAux_eq_foldl l [] [] (by simp)
  simpa [MediumScraper.remove_duplicates, dedupByNormalizedTitleSpec] using h

/-- Every article surviving the dedup scan has a non-empty normalised
title not in `seen`, and the survivors have pairwise distinct
normalised titles. -/
theorem removeDupAux_invariant (l : List Article) :
    ∀ seen : List String,
    (∀ a ∈ MediumScraper.removeDupAux seen l,
      MediumScraper.normTitle a ≠ "" ∧ MediumScraper.normTitle a ∉ seen) ∧
    (MediumScraper.removeDupAux seen l).Pairwise
      (fun a b => MediumScraper.normTitle a ≠ MediumScraper.normTitle b) := by
  induction l with
  | nil => intro seen; simp [MediumScraper.removeDupAux]
  | cons a l ih =>
    intro seen
    simp only [MediumScraper.removeDupAux]
    by_cases hc : MediumScraper.normTitle a ≠ "" ∧ MediumScraper.normTitle a ∉ seen
    · rw [if_pos hc]
      obtain ⟨ihmem, ihpw⟩ := ih (MediumScraper.normTitle a :: seen)
      constructor
      · intro b hb
        rcases List.mem_cons.mp hb with h1 | h2
        · subst h1; exact hc
        · obtain ⟨h3, h4⟩ := ihmem b h2
          exact ⟨h3, fun hs => h4 (List.mem_cons_of_mem _ hs)⟩
      · refine List.pairwise_cons.mpr ⟨?_, ihpw⟩
        intro b hb hab
        exact (ihmem b hb).2 (hab ▸ List.mem_cons_self _ _)
    · rw [if_neg hc]
      exact ih seen

/-- C9: every list returned by `search_ai_articles` has length at most
`max_results`, all its articles have a title that is non-empty after
lowercasing and stripping, those normalised titles are pairwise
distinct, and a top-level failure yields the empty list. -/
theorem search_ai_articles_invariants
    (env : Except Unit (List (Except Unit (List Article)))) (max_results : Nat) :
    (MediumScraper.search_ai_articles env max_results).length ≤ max_results ∧
    (∀ a ∈ MediumScraper.search_ai_articles env max_results,
      MediumScraper.normTitle a ≠ "") ∧
    (MediumScraper.search_ai_articles env max_results).Pairwise
      (fun a b => MediumScraper.normTitle a ≠ MediumScraper.normTitle b) ∧
    (env = .error () → MediumScraper.search_ai_articles env max_results = []) := by
  match env with
  | .error () => simp [MediumScraper.search_ai_articles]
  | .ok pages =>
    simp only [MediumScraper.search_ai_articles]
    obtain ⟨hmem, hpw⟩ :=
      removeDupAux_invariant (MediumScraper.gatherPages max_results pages []) []
    refine ⟨List.length_take_le _ _, ?_, ?_, by intro h; cases h⟩
    · intro a ha
      exact (hmem a (List.take_subset _ _ ha)).1
    · exact List.Pairwise.sublist (List.take_sublist _ _) hpw

/-- Concrete instance of `search_ai_articles_invariants`: the failure
case returns `[]`, and a surviving article has a non-empty normalised
title. -/
theorem search_ai_articles_invariants_witness :
    MediumScraper.search_ai_articles (Except.error ()) 3 = [] ∧
    MediumScraper.normTitle artAIupper ≠ "" :=
  ⟨(search_ai_articles_invariants (Except.error ()) 3).2.2.2 rfl,
   (search_ai_articles_invariants (Except.ok [Except.ok [artAIupper]]) 3).2.1
     artAIupper (by decide)⟩

/-- C8 (counterexample): `generate_post` can return `None` although the
article list is non-empty and the LLM call succeeded — a response of
`"null"` is valid JSON decoding to Python `None`, and is returned. -/
theorem generate_post_none_counterexample :
    LinkedInPostGenerator.generate_post articlesEx (.ok "null") = none ∧
    articlesEx ≠ [] ∧
    LinkedInPostGenerator.LlmRun.ok "null" ≠ LinkedInPostGenerator.LlmRun.exn := by
  refine ⟨rfl, by decide, by decide⟩

/-- C8 (amended): `generate_post` returns `None` exactly when the
article list is empty, the LLM call raises, or the stripped response is
valid JSON decoding to `null`; and whenever the call succeeds but the
stripped response is not valid JSON, it returns a dict with exactly the
keys `title`, `post_body_en`, `post_body_es`, `link`, where
`post_body_en` is the stripped response text and `link` is the first
article's url (or the empty string when absent). -/
theorem generate_post_spec (articles : List Article)
    (llm : LinkedInPostGenerator.LlmRun) :
    (LinkedInPostGenerator.generate_post articles llm = none ↔
      articles = [] ∨ llm = .exn ∨
        ∃ raw, llm = .ok raw ∧ jsonLoads (pyStrip raw) = some Json.null) ∧
    (∀ raw, llm = .ok raw → jsonLoads (pyStrip raw) = none → articles ≠ [] →
      LinkedInPostGenerator.generate_post articles llm =
        some (Json.obj
          [("title", Json.str "AI News Update"),
           ("post_body_en", Json.str (pyStrip raw)),
           ("post_body_es", Json.str "Error: Could not parse Spanish version"),
           ("link", Json.str ((articles.headD {}).url.getD ""))])) := by
  by_cases ha : articles.isEmpty
  · have ha' : articles = [] := List.isEmpty_iff.mp ha
    constructor
    · simp [LinkedInPostGenerator.generate_post, ha, ha']
    · intro raw _ _ h3
      exact absurd ha' h3
  · have ha' : ¬articles = [] := fun h => ha (by simp [h])
    cases llm with
    | exn =>
      constructor
      · simp [LinkedInPostGenerator.generate_post, ha, ha']
      · intro raw h
        cases h
    | ok raw0 =>
      have hsimp : LinkedInPostGenerator.generate_post articles (.ok raw0) =
          match jsonLoads (pyStrip raw0) with
          | some v => match v with | .null => none | _ => some v
          | none => some (LinkedInPostGenerator.fallbackPost (pyStrip raw0) articles) := by
        simp [LinkedInPostGenerator.generate_post, ha]
      constructor
      · rw [hsimp]
        cases hj : jsonLoads (pyStrip raw0) with
        | none => simp [ha', hj]
        | some v => cases v <;> simp [ha', hj]
      · intro raw h h2 _
        cases h
        rw [hsimp, h2]
        rfl

/-- Concrete instances of `generate_post_spec`: the empty-articles case
and the invalid-JSON fallback. -/
theorem generate_post_spec_witness :
    LinkedInPostGenerator.generate_post [] .exn = none ∧
    LinkedInPostGenerator.generate_post articlesEx (.ok "Hello") =
      some (Json.obj
        [("title", Json.str "AI News Update"),
         ("post_body_en", Json.str (pyStrip "Hello")),
         ("post_body_es", Json.str "Error: Could not parse Spanish version"),
         ("link", Json.str ((articlesEx.headD {}).url.getD ""))]) :=
  ⟨(generate_post_spec [] .exn).1.mpr (Or.inl rfl),
   (generate_post_spec articlesEx (.ok "Hello")).2 "Hello" rfl rfl (by decide)⟩

/-- C2 (counterexample): on a fully successful run the web UI produces
the same post data but not the same side effects as `LinkedInMCP.run`:
`run` saves the post to `linkedin_post.json` while the web worker never
does, and the web worker does not perform the output step. -/
theorem web_pipeline_counterexample :
    (LinkedInMCP.run envRunOk).savedFile = some pdRun ∧
    (generate_post_async envRunOk).savedFile = none ∧
    (generate_post_async envRunOk).steps ≠ (LinkedInMCP.run envRunOk).steps := by
  refine ⟨rfl, rfl, by decide⟩

/-- C2 (amended): the CLI and the desktop GUI wrap `LinkedInMCP.run`
itself — fetch news, generate post, output result, with identical
results and side effects — while the web UI performs the same fetch and
generate steps in the same order and stores the same post data, but
never performs `run`'s output step: it writes no `linkedin_post.json`
file. -/
theorem frontends_pipeline_spec (env : RunEnv) :
    mainCli env = LinkedInMCP.run env ∧
    generate_post_thread env = LinkedInMCP.run env ∧
    (generate_post_async env).current_post_data = (LinkedInMCP.run env).result ∧
    (generate_post_async env).steps =
      (LinkedInMCP.run env).steps.filter (fun s => s != Step.outputResults) ∧
    (generate_post_async env).savedFile = none := by
  refine ⟨rfl, rfl, ?_, ?_, ?_⟩ <;>
  · simp only [generate_post_async, LinkedInMCP.run]
    by_cases h : ((NewsFetcher.fetch_latest_news env.news).1).isEmpty
    · simp [h]
    · simp only [h, Bool.false_eq_true, if_false]
      cases LinkedInPostGenerator.generate_post
          (NewsFetcher.fetch_latest_news env.news).1 env.llm with
      | none => simp
      | some pd =>
        by_cases ht : pd.pyTruthy <;> simp [ht]

/-- Concrete instance of `frontends_pipeline_spec`. -/
theorem frontends_pipeline_spec_witness :
    (generate_post_async envRunOk).current_post_data =
      (LinkedInMCP.run envRunOk).result :=
  (frontends_pipeline_spec envRunOk).2.2.1

/-- C1 (counterexample): the fetch chain is not the spec's
NewsAPI → Google RSS → Medium → LLM fallback list.  In `envA` NewsAPI
would yield an article but the code returns Medium's; in `envB` the
code returns the empty list although the LLM-based search (which the
spec chain would reach) yields an article. -/
theorem fetch_chain_spec_counterexample :
    (NewsFetcher.fetch_latest_news envA).1 = [aM] ∧
    specFallbackChainFetch envA = [aN] ∧
    (NewsFetcher.fetch_latest_news envB).1 = [] ∧
    specFallbackChainFetch envB ≠ [] := by
  refine ⟨by decide, by decide, by decide, by decide⟩


/-- C1 (amended): `fetch_latest_news` is an ordered try/fallback chain
over Medium HTML scraping, the MCP-server search, and the OpenAI
LLM-based search, in that order (NewsAPI and Google News RSS are never
consulted): Medium is consulted first and its articles are returned
when non-empty; otherwise the MCP stage runs, and the LLM-based search
runs exactly when the MCP subprocess stage falls through (exception,
nonzero exit, invalid JSON, or missing `result`/`content` fields) — a
successful MCP response is returned even when it parses to no
articles. -/
theorem fetch_latest_news_chain (env : NewsFetcher.FetchEnv) :
    ((NewsFetcher.fetch_latest_news env).2).head? = some Source.medium ∧
    Source.newsAPI ∉ (NewsFetcher.fetch_latest_news env).2 ∧
    Source.googleRSS ∉ (NewsFetcher.fetch_latest_news env).2 ∧
    (¬(MediumScraper.search_ai_articles env.medium 3).isEmpty →
      NewsFetcher.fetch_latest_news env =
        (MediumScraper.search_ai_articles env.medium 3, [Source.medium])) ∧
    ((MediumScraper.search_ai_articles env.medium 3).isEmpty →
      NewsFetcher.fetch_latest_news env =
        ((NewsFetcher.search_news_with_mcp env.mcp env.openai).1,
          Source.medium :: (NewsFetcher.search_news_with_mcp env.mcp env.openai).2)) ∧
    (Source.mcpServer ∈ (NewsFetcher.fetch_latest_news env).2 ↔
      (MediumScraper.search_ai_articles env.medium 3).isEmpty) ∧
    (Source.openaiSearch ∈ (NewsFetcher.fetch_latest_news env).2 ↔
      (MediumScraper.search_ai_articles env.medium 3).isEmpty ∧
        NewsFetcher.mcpStageResult env.mcp = none) ∧
    (Source.openaiSearch ∈ (NewsFetcher.fetch_latest_news env).2 →
      (NewsFetcher.fetch_latest_news env).1 =
        NewsFetcher.search_news_with_openai env.openai) := by
  by_cases h : (MediumScraper.search_ai_articles env.medium 3).isEmpty
  · have hf : NewsFetcher.fetch_latest_news env =
        ((NewsFetcher.search_news_with_mcp env.mcp env.openai).1,
          Source.medium :: (NewsFetcher.search_news_with_mcp env.mcp env.openai).2) := by
      simp [NewsFetcher.fetch_latest_news, h]
    cases hm : NewsFetcher.mcpStageResult env.mcp with
    | some arts =>
      have hs : NewsFetcher.search_news_with_mcp env.mcp env.openai =
          (arts, [Source.mcpServer]) := by
        simp [NewsFetcher.search_news_with_mcp, hm]
      have htr : (NewsFetcher.fetch_latest_news env).2 =
          [Source.medium, Source.mcpServer] := by
        rw [hf, hs]
      refine ⟨by rw [htr]; rfl, by rw [htr]; decide, by rw [htr]; decide,
        fun hc => absurd h hc, fun _ => hf, ?_, ?_, ?_⟩
      · rw [htr]
        exact iff_of_true (by decide) h
      · rw [htr]
        constructor
        · intro hmem
          exact absurd hmem (by decide)
        · rintro ⟨-, hnone⟩
          cases hnone
      · rw [htr]
        intro hmem
        exact absurd hmem (by decide)
    | none =>
      have hs : NewsFetcher.search_news_with_mcp env.mcp env.openai =
          (NewsFetcher.search_news_with_openai env.openai,
            [Source.mcpServer, Source.openaiSearch]) := by
        simp [NewsFetcher.search_news_with_mcp, hm]
      have htr : (NewsFetcher.fetch_latest_news env).2 =
          [Source.medium, Source.mcpServer, Source.openaiSearch] := by
        rw [hf, hs]
      have hres : (NewsFetcher.fetch_latest_news env).1 =
          NewsFetcher.search_news_with_openai env.openai := by
        rw [hf, hs]
      refine ⟨by rw [htr]; rfl, by rw [htr]; decide, by rw [htr]; decide,
        fun hc => absurd h hc, fun _ => hf, ?_, ?_, fun _ => hres⟩
      · rw [htr]
        exact iff_of_true (by decide) h
      · rw [htr]
        exact iff_of_true (by decide) ⟨h, rfl⟩
  · have hf : NewsFetcher.fetch_latest_news env =
        (MediumScraper.search_ai_articles env.medium 3, [Source.medium]) := by
      simp [NewsFetcher.fetch_latest_news, h]
    have htr : (NewsFetcher.fetch_latest_news env).2 = [Source.medium] := by
      rw [hf]
    refine ⟨by rw [htr]; rfl, by rw [htr]; decide, by rw [htr]; decide,
      fun _ => hf, fun hc => absurd hc h, ?_, ?_, ?_⟩
    · rw [htr]
      constructor
      · intro hmem
        exact absurd hmem (by decide)
      · intro hc
        exact absurd hc h
    · rw [htr]
      constructor
      · intro hmem
        exact absurd hmem (by decide)
      · rintro ⟨hc, -⟩
        exact absurd hc h
    · rw [htr]
      intro hmem
      exact absurd hmem (by decide)

/-- Concrete instances of `fetch_latest_news_chain`: Medium non-empty
(its articles returned) and Medium empty (MCP stage result returned). -/
theorem fetch_latest_news_chain_witness :
    NewsFetcher.fetch_latest_news envA =
      (MediumScraper.search_ai_articles envA.medium 3, [Source.medium]) ∧
    NewsFetcher.fetch_latest_news envB =
      ((NewsFetcher.search_news_with_mcp envB.mcp envB.openai).1,
        Source.medium :: (NewsFetcher.search_news_with_mcp envB.mcp envB.openai).2) :=
  ⟨(fetch_latest_news_chain envA).2.2.2.1 (by decide),
   (fetch_latest_news_chain envB).2.2.2.2.1 (by decide)⟩

/-- C4: the chain has no retry policy — within one execution of
`fetch_latest_news` each source (the Medium scrape, the MCP server
subprocess, the OpenAI-based search) is consulted at most once. -/
theorem fetch_latest_news_no_retry (env : NewsFetcher.FetchEnv) (s : Source) :
    ((NewsFetcher.fetch_latest_news env).2).count s ≤ 1 := by
  by_cases h : (MediumScraper.search_ai_articles env.medium 3).isEmpty
  · have hf : (NewsFetcher.fetch_latest_news env).2 =
        Source.medium :: (NewsFetcher.search_news_with_mcp env.mcp env.openai).2 := by
      simp [NewsFetcher.fetch_latest_news, h]
    rw [hf]
    cases hm : NewsFetcher.mcpStageResult env.mcp with
    | some arts =>
      have hs : (NewsFetcher.search_news_with_mcp env.mcp env.openai).2 =
          [Source.mcpServer] := by
        simp [NewsFetcher.search_news_with_mcp, hm]
      rw [hs]
      cases s <;> decide
    | none =>
      have hs : (NewsFetcher.search_news_with_mcp env.mcp env.openai).2 =
          [Source.mcpServer, Source.openaiSearch] := by
        simp [NewsFetcher.search_news_with_mcp, hm]
      rw [hs]
      cases s <;> decide
  · have hf : (NewsFetcher.fetch_latest_news env).2 = [Source.medium] := by
      simp [NewsFetcher.fetch_latest_news, h]
    rw [hf]
    cases s <;> decide
